import Mathlib

/-!
Shallow embedding of the HeroHours attendance core (FRC5892/HeroHours):
the check-in/check-out state machine of `HeroHours/views.py`
(`handle_entry`, `_handle_bulk_updates`, `_process_check_in_out`) and the
admin `reset` action of `HeroHours/admin.py`, over the data model of
`HeroHours/models.py`.

Modelling conventions:
- timestamps are integers (seconds); `Total_Seconds` (a Python float fed
  with whole-second-scale deltas) is an integer accumulator; `Total_Hours`
  (a duration equal to `timedelta(seconds=Total_Seconds)`) is mirrored as
  an integer number of seconds;
- the database is a pair of lists (member rows keyed by `User_ID`, the
  append-only activity log); `save`, `bulk_update` and `bulk_create` are
  explicit list operations;
- `transaction.atomic` blocks are modelled by a write-plan semantics
  (`runBlocks`): an operation is a list of atomic blocks of primitive
  writes, and a fault during block `i` rolls that block back and stops.
-/

namespace HeroHours

/-! ## Data model (HeroHours/models.py) -/

structure Users where
  User_ID : Int
  First_Name : String
  Last_Name : String
  Total_Hours : Int
  Checked_In : Bool
  Total_Seconds : Int
  Last_In : Option Int
  Last_Out : Option Int
  Is_Active : Bool
deriving Repr, DecidableEq

structure ActivityLog where
  user : Option Int
  entered : String
  operation : String
  status : String
  message : String
deriving Repr, DecidableEq

structure DB where
  members : List Users
  logs : List ActivityLog
deriving Repr, DecidableEq

/-! ## Constants (views.py: Commands, StatusMessages, Operations) -/

namespace Commands

def SEND_TO_SHEETS : String := "Send"

def ADMIN_PANEL : String := "admin"

def LOGOUT : String := "---"

def BULK_CHECK_IN : String := "-404"

def BULK_CHECK_OUT : String := "+404"

end Commands

namespace StatusMessages

def SUCCESS : String := "Success"

def ERROR : String := "Error"

def USER_NOT_FOUND : String := "User Not Found"

def INVALID_INPUT : String := "Invalid Input"

def INACTIVE_USER : String := "Inactive User"

def CHECK_OUT : String := "Check Out"

end StatusMessages

namespace Operations

def CHECK_IN : String := "Check In"

def CHECK_OUT : String := "Check Out"

def NONE : String := "None"

end Operations

/-- Python `str.strip()`: remove leading and trailing whitespace. -/
def pyStrip (s : String) : String :=
  ⟨((s.data.dropWhile Char.isWhitespace).reverse.dropWhile Char.isWhitespace).reverse⟩

/-- views.py Commands.is_refresh_command: membership in ('+00', '+01', '*'). -/
def is_refresh_command (cmd : String) : Bool :=
  cmd == "+00" || cmd == "+01" || cmd == "*"

/-- Python `int(s)` on an already-stripped string, for the inputs this
dispatcher sees: an optional single sign followed by decimal digits.
(Underscore separators and non-ASCII digits are not modelled.) -/
def digitsToNat : List Char → Option Nat
  | [] => none
  | cs =>
    if cs.all Char.isDigit then
      some (cs.foldl (fun a c => a * 10 + (c.toNat - 48)) 0)
    else none

def pyParseInt (s : String) : Option Int :=
  match s.data with
  | '+' :: rest => (digitsToNat rest).map (fun n => (n : Int))
  | '-' :: rest => (digitsToNat rest).map (fun n => -(n : Int))
  | cs => (digitsToNat cs).map (fun n => (n : Int))

/-! ## Transition Engine (views.py `_process_check_in_out`)

Pure result of one transition on one member: the saved member row, the
saved log entry, and the returned `state` (`none` on the inactive path).
The inactive path does not save the member; the caller also does not. -/

def process_check_in_out (user : Users) (right_now : Int) (log : ActivityLog) :
    Users × ActivityLog × Option Bool :=
  if !user.Is_Active then
    (user,
     { log with operation := Operations.NONE, status := StatusMessages.INACTIVE_USER },
     none)
  else if user.Checked_In then
    let lastIn := user.Last_In.getD right_now
    let ts := user.Total_Seconds + (right_now - lastIn)
    ({ user with Last_In := some lastIn, Total_Seconds := ts, Total_Hours := ts,
                 Last_Out := some right_now, Checked_In := false },
     { log with operation := Operations.CHECK_OUT, status := StatusMessages.SUCCESS },
     some false)
  else
    ({ user with Last_In := some right_now, Checked_In := true },
     { log with operation := Operations.CHECK_IN, status := StatusMessages.SUCCESS },
     some true)

/-- `user.save()`: replace the row whose primary key matches. -/
def saveUser (members : List Users) (u : Users) : List Users :=
  members.map (fun x => if x.User_ID == u.User_ID then u else x)

/-- `Users.objects.bulk_update(updated_users, fields)`: each in-memory
object overwrites the row with its primary key, in list order. -/
def bulk_update (members : List Users) (updated : List Users) : List Users :=
  updated.foldl saveUser members

/-! ## Bulk Transition Engine (views.py `_handle_bulk_updates`) -/

/-- The in-memory mutation the bulk check-out loop performs on one user. -/
def bulk_check_out_math (time : Int) (u : Users) : Users :=
  let lastIn := u.Last_In.getD time
  let ts := u.Total_Seconds + (time - lastIn)
  { u with Last_In := some lastIn, Total_Seconds := ts, Total_Hours := ts,
           Last_Out := some time, Checked_In := false }

/-- The bulk check-out `bulk_update` names only
["Checked_In", "Total_Hours", "Total_Seconds", "Last_Out"]: the stored
row keeps its own `Last_In`, even if the loop substituted one in memory. -/
def bulk_update_fields_check_out (stored computed : Users) : Users :=
  { stored with Checked_In := computed.Checked_In, Total_Hours := computed.Total_Hours,
                Total_Seconds := computed.Total_Seconds, Last_Out := computed.Last_Out }

/-- The log row the bulk loop creates for one user. -/
def mk_bulk_log (u : Users) (operation : String) : ActivityLog :=
  { user := some u.User_ID, entered := toString u.User_ID,
    operation := operation, status := StatusMessages.SUCCESS, message := "" }

def handle_bulk_updates (db : DB) (debug : Bool) (user_id : String) (time : Int) : DB :=
  if user_id == Commands.BULK_CHECK_IN then
    if !debug then db
    else
      let users_to_update := db.members.filter (fun u => !u.Checked_In && u.Is_Active)
      let updated_users := users_to_update.map
        (fun u => { u with Checked_In := true, Last_In := some time })
      let updated_logs := users_to_update.map (fun u => mk_bulk_log u Operations.CHECK_IN)
      { members := bulk_update db.members updated_users, logs := db.logs ++ updated_logs }
  else
    let users_to_update := db.members.filter (fun u => u.Checked_In && u.Is_Active)
    let updated_users := users_to_update.map
      (fun u => bulk_update_fields_check_out u (bulk_check_out_math time u))
    let updated_logs := users_to_update.map (fun u => mk_bulk_log u Operations.CHECK_OUT)
    { members := bulk_update db.members updated_users, logs := db.logs ++ updated_logs }

/-! ## Command Dispatcher (views.py `handle_entry`) -/

inductive Resp where
  | json (status : String) (state : Option Bool)
  | redirectTo (target : String)
  | badRequest (status : String)
deriving Repr, DecidableEq

/-- views.py `_handle_special_commands`: redirect target, or none. -/
def handle_special_commands (user_input : String) : Option String :=
  if is_refresh_command user_input then some "index"
  else if user_input == Commands.SEND_TO_SHEETS then some "send_data_to_google_sheet"
  else if user_input == Commands.ADMIN_PANEL then some "/admin/"
  else if user_input == Commands.LOGOUT then some "login"
  else none

def handle_entry (db : DB) (debug : Bool) (raw : String) (right_now : Int) : DB × Resp :=
  let user_input := pyStrip raw
  if user_input.isEmpty then (db, .badRequest StatusMessages.ERROR)
  else
    match handle_special_commands user_input with
    | some target => (db, .redirectTo target)
    | none =>
      if user_input == Commands.BULK_CHECK_IN || user_input == Commands.BULK_CHECK_OUT then
        (handle_bulk_updates db debug user_input right_now, .redirectTo "index")
      else
        let log : ActivityLog :=
          { user := none, entered := user_input, operation := Operations.NONE,
            status := StatusMessages.ERROR, message := "" }
        match pyParseInt user_input with
        | none =>
          ({ db with logs := db.logs ++ [{ log with status := StatusMessages.INVALID_INPUT }] },
           .json StatusMessages.INVALID_INPUT none)
        | some user_id =>
          match db.members.find? (fun u => u.User_ID == user_id) with
          | none =>
            ({ db with logs := db.logs ++ [{ log with status := StatusMessages.USER_NOT_FOUND }] },
             .json StatusMessages.USER_NOT_FOUND none)
          | some user =>
            let r := process_check_in_out user right_now { log with user := some user.User_ID }
            match r.2.2 with
            | none =>
              ({ db with logs := db.logs ++ [r.2.1] }, .json StatusMessages.INACTIVE_USER none)
            | some state =>
              ({ members := saveUser db.members r.1, logs := db.logs ++ [r.2.1] },
               .json (if state then StatusMessages.SUCCESS else StatusMessages.CHECK_OUT)
                 (some state))

/-! ## Reset Operation (admin.py `reset`)

The admin action runs entirely inside one `transaction.atomic` block:
for each selected member it appends a `Check Out`/`Success` log when the
member is checked in and flips the flag, then zeroes the accumulators,
clears both timestamps and appends a `Reset`/`Success` log; finally it
persists via `bulk_update` over
["Checked_In", "Total_Hours", "Total_Seconds", "Last_Out", "Last_In"]
and `bulk_create` over the collected logs. The admin-created logs carry
no `entered` value (the model uses the empty string the ORM stores). -/

def reset_member (u : Users) : Users :=
  { u with Checked_In := false, Total_Seconds := 0, Total_Hours := 0,
           Last_In := none, Last_Out := none }

def reset_logs (u : Users) : List ActivityLog :=
  (if u.Checked_In then
    [{ user := some u.User_ID, entered := "", operation := Operations.CHECK_OUT,
       status := StatusMessages.SUCCESS, message := "" }]
   else [])
  ++ [{ user := some u.User_ID, entered := "", operation := "Reset",
        status := StatusMessages.SUCCESS, message := "" }]

def reset (db : DB) (selected : List Int) : DB :=
  let users_to_update := db.members.filter (fun u => selected.contains u.User_ID)
  let updated_users := users_to_update.map reset_member
  let updated_logs := (users_to_update.map reset_logs).flatten
  { members := bulk_update db.members updated_users, logs := db.logs ++ updated_logs }

/-! ## Write-plan semantics for atomicity

A run of an operation is a list of atomic blocks of primitive writes.
A block models one `transaction.atomic`; a write outside any transaction
is a singleton block. `runBlocks db blocks fault` commits the blocks in
order; a fault during block `i` (0-based) rolls that block back entirely
and stops the run, leaving every earlier block committed. -/

inductive WriteOp where
  | putMember (u : Users)
  | putLog (l : ActivityLog)
deriving Repr, DecidableEq

def applyWrite (db : DB) : WriteOp → DB
  | .putMember u => { db with members := saveUser db.members u }
  | .putLog l => { db with logs := db.logs ++ [l] }

def applyBlock (db : DB) (b : List WriteOp) : DB := b.foldl applyWrite db

def runBlocks : DB → List (List WriteOp) → Option Nat → DB
  | db, [], _ => db
  | db, _ :: _, some 0 => db
  | db, b :: rest, some (n + 1) => runBlocks (applyBlock db b) rest (some n)
  | db, b :: rest, none => runBlocks (applyBlock db b) rest none

/-- The write plan of `_process_check_in_out` for a member the dispatcher
found: the inactive path only saves the log; the active path saves the
member inside `transaction.atomic` (one block) and then saves the log
after the transaction completes (a second, separate block) — see the
`log.save()` that follows the `with transaction.atomic():` suite. -/
def process_plan (user : Users) (right_now : Int) (log : ActivityLog) :
    List (List WriteOp) :=
  let r := process_check_in_out user right_now log
  if !user.Is_Active then [[.putLog r.2.1]]
  else [[.putMember r.1], [.putLog r.2.1]]

/-- The write plan of `_handle_bulk_updates`: every member update and
every log insert of the batch sits inside the single `transaction.atomic`
block (`bulk_update` then `bulk_create`). -/
def bulk_plan (db : DB) (debug : Bool) (user_id : String) (time : Int) :
    List (List WriteOp) :=
  if user_id == Commands.BULK_CHECK_IN then
    if !debug then []
    else
      let sel := db.members.filter (fun u => !u.Checked_In && u.Is_Active)
      [(sel.map (fun u => { u with Checked_In := true, Last_In := some time })).map
          WriteOp.putMember
        ++ (sel.map (fun u => mk_bulk_log u Operations.CHECK_IN)).map WriteOp.putLog]
  else
    let sel := db.members.filter (fun u => u.Checked_In && u.Is_Active)
    [(sel.map (fun u => bulk_update_fields_check_out u (bulk_check_out_math time u))).map
        WriteOp.putMember
      ++ (sel.map (fun u => mk_bulk_log u Operations.CHECK_OUT)).map WriteOp.putLog]

/-- The write plan of the admin `reset` action: one atomic block. -/
def reset_plan (db : DB) (selected : List Int) : List (List WriteOp) :=
  let sel := db.members.filter (fun u => selected.contains u.User_ID)
  [(sel.map reset_member).map WriteOp.putMember
    ++ (sel.map reset_logs).flatten.map WriteOp.putLog]

/-- Repeated application of the Transition Engine to one member's row
(each call feeds the saved row back in), as in repeated dispatches. -/
def iterate_transition (right_now : Int) (log : ActivityLog) : Nat → Users → Users
  | 0, u => u
  | n + 1, u => iterate_transition right_now log n (process_check_in_out u right_now log).1

/-! ## Concrete fixtures used as test inputs -/

def log0 : ActivityLog :=
  { user := none, entered := "", operation := Operations.NONE,
    status := StatusMessages.ERROR, message := "" }

/-- Checked in with a `Last_In` 10 seconds in the future of the clock
used at check-out (clock skew / corrupted timestamp). -/
def sample_skew : Users :=
  { User_ID := 42, First_Name := "Ada", Last_Name := "L", Total_Hours := 0,
    Checked_In := true, Total_Seconds := 0, Last_In := some 10, Last_Out := none,
    Is_Active := true }

/-- Checked in at 100 with 100 accumulated seconds. -/
def sample_co : Users :=
  { User_ID := 7, First_Name := "Bo", Last_Name := "K", Total_Hours := 100,
    Checked_In := true, Total_Seconds := 100, Last_In := some 100, Last_Out := none,
    Is_Active := true }

/-- Active and currently checked out. -/
def sample_out : Users :=
  { User_ID := 3, First_Name := "Cy", Last_Name := "D", Total_Hours := 50,
    Checked_In := false, Total_Seconds := 50, Last_In := some 1, Last_Out := some 2,
    Is_Active := true }

/-- Inactive member, currently flagged checked in. -/
def sample_inactive : Users :=
  { User_ID := 5, First_Name := "Ed", Last_Name := "F", Total_Hours := 9,
    Checked_In := true, Total_Seconds := 9, Last_In := some 4, Last_Out := none,
    Is_Active := false }

/-- Active, checked in, but with no `Last_In` recorded. -/
def sample_null_in : Users :=
  { User_ID := 9, First_Name := "Gil", Last_Name := "H", Total_Hours := 7,
    Checked_In := true, Total_Seconds := 7, Last_In := none, Last_Out := none,
    Is_Active := true }

/-- A member whose id collides with the numeric part of the bulk tokens. -/
def member404 : Users :=
  { User_ID := 404, First_Name := "Ivy", Last_Name := "J", Total_Hours := 0,
    Checked_In := false, Total_Seconds := 0, Last_In := none, Last_Out := none,
    Is_Active := true }

/-! ## Row-replacement lemmas

`bulk_update` replaces rows by primary key, one in-memory object after
another; under distinct primary keys this is a pointwise `map`. -/

/-- The value a single row ends up with after a sequence of puts. -/
def last_put (updated : List Users) (x : Users) : Users :=
  updated.foldl (fun acc u => if acc.User_ID == u.User_ID then u else acc) x

theorem bulk_update_eq_map (ms : List Users) (us : List Users) :
    bulk_update ms us = ms.map (last_put us) := by
  induction us generalizing ms with
  | nil =>
    have h : ms.map (last_put []) = ms.map id := List.map_congr_left (fun x _ => rfl)
    simp [bulk_update, h]
  | cons u us ih =>
    simp only [bulk_update, List.foldl_cons] at *
    rw [ih (saveUser ms u)]
    simp [saveUser, List.map_map, last_put, Function.comp]

theorem last_put_no_match (us : List Users) (x : Users)
    (h : ∀ u ∈ us, u.User_ID ≠ x.User_ID) : last_put us x = x := by
  induction us with
  | nil => rfl
  | cons u us ih =>
    have hne : (x.User_ID == u.User_ID) = false := by
      simp [beq_iff_eq]
      exact fun e => h u (by simp) (e.symm)
    simp only [last_put, List.foldl_cons, hne, if_neg]
    simp only [Bool.false_eq_true, if_false]
    exact ih (fun v hv => h v (List.mem_cons_of_mem u hv))

theorem last_put_append (a b : List Users) (x : Users) :
    last_put (a ++ b) x = last_put b (last_put a x) := by
  simp [last_put, List.foldl_append]

theorem last_put_unique (a b : List Users) (u x : Users)
    (ha : ∀ v ∈ a, v.User_ID ≠ x.User_ID)
    (hu : u.User_ID = x.User_ID)
    (hb : ∀ v ∈ b, v.User_ID ≠ u.User_ID) :
    last_put (a ++ u :: b) x = u := by
  rw [last_put_append, last_put_no_match a x ha]
  have hx : (x.User_ID == u.User_ID) = true := by simp [beq_iff_eq, hu.symm]
  simp only [last_put, List.foldl_cons, hx, if_true]
  exact last_put_no_match b u hb

/-- With pairwise-distinct primary keys, applying `bulk_update` with the
mapped filter of the table itself rewrites exactly the selected rows. -/
theorem last_put_filter_map (ms : List Users) (p : Users → Bool) (f : Users → Users)
    (hf : ∀ u, (f u).User_ID = u.User_ID)
    (hnd : (ms.map (fun u => u.User_ID)).Nodup)
    (x : Users) (hx : x ∈ ms) :
    last_put ((ms.filter p).map f) x = if p x then f x else x := by
  have hinj := List.inj_on_of_nodup_map hnd
  by_cases hp : p x
  · obtain ⟨l1, l2, hsplit⟩ := List.append_of_mem (List.mem_filter.2 ⟨hx, hp⟩)
    have hndms : ms.Nodup := List.Nodup.of_map _ hnd
    have hndf : (ms.filter p).Nodup := List.Nodup.filter p hndms
    rw [hsplit] at hndf
    have hxnotmem : x ∉ l1 ++ l2 := (List.nodup_cons.1 (List.nodup_middle.1 hndf)).1
    have hsub : ∀ y ∈ ms.filter p, y ∈ ms := fun y hy => List.mem_of_mem_filter hy
    rw [hsplit, List.map_append, List.map_cons]
    rw [last_put_unique]
    · simp [hp]
    · intro v hv
      obtain ⟨y, hy, rfl⟩ := List.mem_map.1 hv
      rw [hf y]
      intro he
      have hyms : y ∈ ms := hsub y (by rw [hsplit]; exact List.mem_append_left _ hy)
      have : y = x := hinj hyms hx he
      subst this
      exact hxnotmem (List.mem_append_left _ hy)
    · exact hf x
    · intro v hv
      obtain ⟨y, hy, rfl⟩ := List.mem_map.1 hv
      rw [hf y, hf x]
      intro he
      have hyms : y ∈ ms := hsub y (by rw [hsplit]; exact List.mem_append_right _ (List.mem_cons_of_mem _ hy))
      have : y = x := hinj hyms hx he
      subst this
      exact hxnotmem (List.mem_append_right _ hy)
  · rw [if_neg hp]
    apply last_put_no_match
    intro v hv
    obtain ⟨y, hy, rfl⟩ := List.mem_map.1 hv
    rw [hf y]
    intro he
    have hyms : y ∈ ms := List.mem_of_mem_filter hy
    have : y = x := hinj hyms hx he
    subst this
    exact hp (List.of_mem_filter hy)

theorem bulk_update_filter_map (ms : List Users) (p : Users → Bool) (f : Users → Users)
    (hf : ∀ u, (f u).User_ID = u.User_ID)
    (hnd : (ms.map (fun u => u.User_ID)).Nodup) :
    bulk_update ms ((ms.filter p).map f) = ms.map (fun x => if p x then f x else x) := by
  rw [bulk_update_eq_map]
  exact List.map_congr_left (fun x hx => last_put_filter_map ms p f hf hnd x hx)

/-! ## Block-run lemmas -/

theorem applyBlock_append (db : DB) (a b : List WriteOp) :
    applyBlock db (a ++ b) = applyBlock (applyBlock db a) b := by
  simp [applyBlock, List.foldl_append]

theorem applyBlock_putMembers (db : DB) (us : List Users) :
    applyBlock db (us.map WriteOp.putMember) =
      { db with members := bulk_update db.members us } := by
  induction us generalizing db with
  | nil => rfl
  | cons u us ih =>
    simp only [List.map_cons, applyBlock, List.foldl_cons] at *
    rw [show applyWrite db (WriteOp.putMember u) =
      { db with members := saveUser db.members u } from rfl, ih]
    rfl

theorem applyBlock_putLogs (db : DB) (ls : List ActivityLog) :
    applyBlock db (ls.map WriteOp.putLog) = { db with logs := db.logs ++ ls } := by
  induction ls generalizing db with
  | nil => simp [applyBlock]
  | cons l ls ih =>
    simp only [List.map_cons, applyBlock, List.foldl_cons] at *
    rw [show applyWrite db (WriteOp.putLog l) = { db with logs := db.logs ++ [l] } from rfl, ih]
    simp

theorem runBlocks_single_none (db : DB) (b : List WriteOp) :
    runBlocks db [b] none = applyBlock db b := rfl

theorem runBlocks_single_fault (db : DB) (b : List WriteOp) :
    runBlocks db [b] (some 0) = db := rfl

/-- One atomic block of row updates followed by log inserts (the shape of
`bulk_update` + `bulk_create` inside `transaction.atomic`). -/
theorem applyBlock_puts_then_logs (db : DB) (us : List Users) (ls : List ActivityLog) :
    applyBlock db (us.map WriteOp.putMember ++ ls.map WriteOp.putLog) =
      { members := bulk_update db.members us, logs := db.logs ++ ls } := by
  rw [applyBlock_append, applyBlock_putMembers, applyBlock_putLogs]

/-! ## Claim theorems -/

/-- C1 (amended): a check-out on an active, checked-in member sets
`checked_in = false`, `last_out = now`, and adds the raw delta
`now - effective_last_in` to `total_seconds` — the code applies no
`max(0, ·)` clamp, so the delta can be negative; when `last_in` is unset
the engine substitutes `now` and the delta is 0; the log records
`Check Out` / `Success`. -/
theorem checkout_transition_spec (u : Users) (right_now : Int) (log : ActivityLog)
    (hA : u.Is_Active = true) (hC : u.Checked_In = true) :
    (process_check_in_out u right_now log).1.Checked_In = false ∧
    (process_check_in_out u right_now log).1.Last_Out = some right_now ∧
    (process_check_in_out u right_now log).1.Total_Seconds =
      u.Total_Seconds + (right_now - u.Last_In.getD right_now) ∧
    (u.Last_In = none →
      (process_check_in_out u right_now log).1.Total_Seconds = u.Total_Seconds) ∧
    (process_check_in_out u right_now log).2.1.operation = Operations.CHECK_OUT ∧
    (process_check_in_out u right_now log).2.1.status = StatusMessages.SUCCESS := by
  simp [process_check_in_out, hA, hC]
  intro h
  simp [h]

/-- C1 witness: checking `sample_co` (checked in at 100, 100 accumulated
seconds) out at 160 exercises every conjunct of the check-out theorem. -/
theorem checkout_transition_spec_witness :
    (process_check_in_out sample_co 160 log0).1.Checked_In = false ∧
    (process_check_in_out sample_co 160 log0).1.Last_Out = some 160 ∧
    (process_check_in_out sample_co 160 log0).1.Total_Seconds =
      sample_co.Total_Seconds + (160 - sample_co.Last_In.getD 160) ∧
    (sample_co.Last_In = none →
      (process_check_in_out sample_co 160 log0).1.Total_Seconds = sample_co.Total_Seconds) ∧
    (process_check_in_out sample_co 160 log0).2.1.operation = Operations.CHECK_OUT ∧
    (process_check_in_out sample_co 160 log0).2.1.status = StatusMessages.SUCCESS :=
  checkout_transition_spec sample_co 160 log0 rfl rfl

/-- C1 counterexample: with `last_in = 10` and `now = 0` (clock skew) the
code stores `total_seconds = -10`, not the claimn's clamped
`old + max(0, now - t0) = 0`. -/
theorem checkout_clamp_counterexample :
    (process_check_in_out sample_skew 0 log0).1.Total_Seconds = -10 ∧
    sample_skew.Total_Seconds + max 0 (0 - (sample_skew.Last_In.getD 0)) = 0 ∧
    (process_check_in_out sample_skew 0 log0).1.Total_Seconds ≠
      sample_skew.Total_Seconds + max 0 (0 - (sample_skew.Last_In.getD 0)) := by decide

/-- C2 (amended): on the single-member path the Member row is saved inside
`transaction.atomic` (one atomic block) but `log.save()` runs after the
transaction completes: a fault inside the transaction applies neither
write, while a fault at the log save leaves the member mutation persisted
with no log entry — the two writes are not one atomic unit. -/
theorem member_save_and_log_save_split (db : DB) (u : Users) (right_now : Int)
    (log : ActivityLog) (hA : u.Is_Active = true) :
    runBlocks db (process_plan u right_now log) none =
      { members := saveUser db.members (process_check_in_out u right_now log).1,
        logs := db.logs ++ [(process_check_in_out u right_now log).2.1] } ∧
    runBlocks db (process_plan u right_now log) (some 0) = db ∧
    runBlocks db (process_plan u right_now log) (some 1) =
      { members := saveUser db.members (process_check_in_out u right_now log).1,
        logs := db.logs } := by
  have hplan : process_plan u right_now log =
      [[WriteOp.putMember (process_check_in_out u right_now log).1],
       [WriteOp.putLog (process_check_in_out u right_now log).2.1]] := by
    simp [process_plan, hA]
  refine ⟨?_, ?_, ?_⟩ <;> rw [hplan] <;> rfl

/-- C2 witness: the split-write theorem applied to a concrete store
holding the active member `sample_out`. -/
theorem member_save_and_log_save_split_witness :
    runBlocks { members := [sample_out], logs := [] }
        (process_plan sample_out 5 log0) none =
      { members := [{ sample_out with Checked_In := true, Last_In := some 5 }],
        logs := [{ log0 with operation := Operations.CHECK_IN,
                             status := StatusMessages.SUCCESS }] } := by
  have h := member_save_and_log_save_split { members := [sample_out], logs := [] }
    sample_out 5 log0 rfl
  rw [h.1]
  decide

/-- C2 counterexample: a fault at the post-transaction log save leaves the
member flipped to checked-in with no log entry at all — the store holds a
persisted member mutation without its log entry, refuting all-or-nothing
for the pair of writes. -/
theorem atomic_unit_counterexample :
    (runBlocks { members := [sample_out], logs := [] }
        (process_plan sample_out 5 log0) (some 1)).members ≠ [sample_out] ∧
    (runBlocks { members := [sample_out], logs := [] }
        (process_plan sample_out 5 log0) (some 1)).logs = [] ∧
    (runBlocks { members := [sample_out], logs := [] }
        (process_plan sample_out 5 log0) (some 1)).members =
      [{ sample_out with Checked_In := true, Last_In := some 5 }] := by decide

/-- C3 (code bug): the claimed invariant `total_seconds >= 0` fails: an
active, checked-in member with `total_seconds = 0` and `last_in = 10`
checked out at `now = 0` ends with `total_seconds = -10 < 0`, because the
code adds the raw unclamped delta. -/
theorem total_seconds_negative_on_skew :
    sample_skew.Total_Seconds = 0 ∧ sample_skew.Checked_In = true ∧
    sample_skew.Is_Active = true ∧
    (process_check_in_out sample_skew 0 log0).1.Total_Seconds < 0 := by decide

/-- C4 (amended): bulk check-out selects exactly the `active ∧ checked_in`
members, rewrites exactly those rows, appends one log entry per selected
member, runs as one atomic block (a mid-batch fault leaves zero members
mutated), and agrees with the single-member checkout on `checked_in`,
`total_seconds`, `total_hours` and `last_out` — but on `last_in` only when
`last_in` was set: the bulk path's `bulk_update` omits `Last_In` from its
field list, so a null `last_in` stays null while the single path persists
`last_in = now`. -/
theorem bulk_checkout_refines_single (db : DB) (t : Int) (log : ActivityLog)
    (hnd : (db.members.map (fun u => u.User_ID)).Nodup) :
    (∀ debug : Bool, handle_bulk_updates db debug Commands.BULK_CHECK_OUT t =
      { members := db.members.map (fun u =>
          if u.Checked_In && u.Is_Active then
            bulk_update_fields_check_out u (bulk_check_out_math t u)
          else u),
        logs := db.logs ++ (db.members.filter (fun u => u.Checked_In && u.Is_Active)).map
          (fun u => mk_bulk_log u Operations.CHECK_OUT) }) ∧
    (∀ u : Users, u.Is_Active = true → u.Checked_In = true →
      (bulk_update_fields_check_out u (bulk_check_out_math t u)).Checked_In =
        (process_check_in_out u t log).1.Checked_In ∧
      (bulk_update_fields_check_out u (bulk_check_out_math t u)).Total_Seconds =
        (process_check_in_out u t log).1.Total_Seconds ∧
      (bulk_update_fields_check_out u (bulk_check_out_math t u)).Last_Out =
        (process_check_in_out u t log).1.Last_Out ∧
      (bulk_update_fields_check_out u (bulk_check_out_math t u)).Total_Hours =
        (process_check_in_out u t log).1.Total_Hours ∧
      (∀ t0 : Int, u.Last_In = some t0 →
        (bulk_update_fields_check_out u (bulk_check_out_math t u)).Last_In =
          (process_check_in_out u t log).1.Last_In)) ∧
    (∀ debug : Bool, handle_bulk_updates db debug Commands.BULK_CHECK_OUT t =
      runBlocks db (bulk_plan db debug Commands.BULK_CHECK_OUT t) none) ∧
    (∀ debug : Bool,
      runBlocks db (bulk_plan db debug Commands.BULK_CHECK_OUT t) (some 0) = db) := by
  refine ⟨?_, ?_, ?_, fun _ => rfl⟩
  · intro debug
    rw [show handle_bulk_updates db debug Commands.BULK_CHECK_OUT t =
      { members := bulk_update db.members
          ((db.members.filter (fun u => u.Checked_In && u.Is_Active)).map
            (fun u => bulk_update_fields_check_out u (bulk_check_out_math t u))),
        logs := db.logs ++ (db.members.filter (fun u => u.Checked_In && u.Is_Active)).map
          (fun u => mk_bulk_log u Operations.CHECK_OUT) } from rfl]
    rw [bulk_update_filter_map db.members (fun u => u.Checked_In && u.Is_Active)
      (fun u => bulk_update_fields_check_out u (bulk_check_out_math t u)) (fun u => rfl) hnd]
  · intro u hA hC
    refine ⟨?_, ?_, ?_, ?_, ?_⟩ <;>
      [skip; skip; skip; skip; intro t0 h] <;>
      simp [bulk_update_fields_check_out, bulk_check_out_math, process_check_in_out, hA, hC, *]
  · intro debug
    rw [show bulk_plan db debug Commands.BULK_CHECK_OUT t =
      [((db.members.filter (fun u => u.Checked_In && u.Is_Active)).map
          (fun u => bulk_update_fields_check_out u (bulk_check_out_math t u))).map
          WriteOp.putMember
        ++ ((db.members.filter (fun u => u.Checked_In && u.Is_Active)).map
          (fun u => mk_bulk_log u Operations.CHECK_OUT)).map WriteOp.putLog] from rfl]
    rw [runBlocks_single_none, applyBlock_puts_then_logs]
    rfl

/-- C4 witness: bulk check-out at 160 over a store holding checked-in
`sample_co` and checked-out `sample_out` mutates exactly `sample_co` and
appends exactly its log entry. -/
theorem bulk_checkout_refines_single_witness :
    handle_bulk_updates { members := [sample_co, sample_out], logs := [] } true
        Commands.BULK_CHECK_OUT 160 =
      { members := [bulk_update_fields_check_out sample_co (bulk_check_out_math 160 sample_co),
                    sample_out],
        logs := [mk_bulk_log sample_co Operations.CHECK_OUT] } := by
  have h := bulk_checkout_refines_single { members := [sample_co, sample_out], logs := [] }
    160 log0 (by decide)
  rw [h.1 true]
  decide

/-- C4 counterexample: for a checked-in member with `last_in` unset, the
bulk path persists `last_in = null` (the in-memory substitution is not in
the `bulk_update` field list) while the single-member checkout persists
`last_in = now`; the resulting member states differ even though the
accumulated seconds agree. -/
theorem bulk_checkout_null_last_in_counterexample :
    (handle_bulk_updates { members := [sample_null_in], logs := [] } true
        Commands.BULK_CHECK_OUT 5).members ≠
      [(process_check_in_out sample_null_in 5 log0).1] ∧
    (bulk_update_fields_check_out sample_null_in (bulk_check_out_math 5 sample_null_in)).Last_In
      = none ∧
    (process_check_in_out sample_null_in 5 log0).1.Last_In = some 5 ∧
    (bulk_update_fields_check_out sample_null_in
        (bulk_check_out_math 5 sample_null_in)).Total_Seconds =
      (process_check_in_out sample_null_in 5 log0).1.Total_Seconds := by decide

/-- C5 (confirmed): a transition on an active, checked-out member checks
it in: `checked_in = true`, `last_in = now`, `total_seconds` (and every
other field) unchanged, log `Check In` / `Success`, state `true`. -/
theorem checkin_transition_spec (u : Users) (right_now : Int) (log : ActivityLog)
    (hA : u.Is_Active = true) (hC : u.Checked_In = false) :
    process_check_in_out u right_now log =
      ({ u with Last_In := some right_now, Checked_In := true },
       { log with operation := Operations.CHECK_IN, status := StatusMessages.SUCCESS },
       some true) := by
  simp [process_check_in_out, hA, hC]

/-- C5 witness: checking `sample_out` in at time 5. -/
theorem checkin_transition_spec_witness :
    process_check_in_out sample_out 5 log0 =
      ({ sample_out with Last_In := some 5, Checked_In := true },
       { log0 with operation := Operations.CHECK_IN, status := StatusMessages.SUCCESS },
       some true) :=
  checkin_transition_spec sample_out 5 log0 rfl rfl

/-- C6 (confirmed): dispatching an inactive member's id appends exactly one
log entry with `operation = None`, `status = Inactive User` referencing the
member, returns state `none`, and leaves the member list untouched; the
engine returns the member unchanged, so any number of repeated transitions
leaves the member unchanged. -/
theorem inactive_member_frozen (db : DB) (debug : Bool) (input : String)
    (right_now : Int) (uid : Int) (u : Users)
    (h0 : pyStrip input = input) (h1 : input.isEmpty = false)
    (h2 : handle_special_commands input = none)
    (h3 : input ≠ Commands.BULK_CHECK_IN) (h4 : input ≠ Commands.BULK_CHECK_OUT)
    (h5 : pyParseInt input = some uid)
    (h6 : db.members.find? (fun v => v.User_ID == uid) = some u)
    (h7 : u.Is_Active = false) :
    handle_entry db debug input right_now =
      ({ db with logs := db.logs ++
          [{ user := some u.User_ID, entered := input, operation := Operations.NONE,
             status := StatusMessages.INACTIVE_USER, message := "" }] },
       .json StatusMessages.INACTIVE_USER none) ∧
    (∀ (log : ActivityLog),
      process_check_in_out u right_now log =
        (u,
         { log with operation := Operations.NONE,
                    status := StatusMessages.INACTIVE_USER },
         none)) ∧
    (∀ (n : Nat) (now2 : Int) (log : ActivityLog),
      iterate_transition now2 log n u = u) := by
  have b3 : (input == Commands.BULK_CHECK_IN) = false := beq_eq_false_iff_ne.2 h3
  have b4 : (input == Commands.BULK_CHECK_OUT) = false := beq_eq_false_iff_ne.2 h4
  refine ⟨?_, ?_, ?_⟩
  · simp [handle_entry, h0, h1, h2, b3, b4, h5, h6, process_check_in_out, h7]
  · intro log
    simp [process_check_in_out, h7]
  · intro n
    induction n with
    | zero => intro now2 log; rfl
    | succ k ih =>
      intro now2 log
      have hstep : (process_check_in_out u now2 log).1 = u := by
        simp [process_check_in_out, h7]
      simp only [iterate_transition, hstep]
      exact ih now2 log

/-- C6 witness: dispatching `"5"` against a store holding only the
inactive member `sample_inactive` logs `Inactive User` and changes no
member row. -/
theorem inactive_member_frozen_witness :
    handle_entry { members := [sample_inactive], logs := [] } true "5" 9 =
      ({ members := [sample_inactive],
         logs := [{ user := some 5, entered := "5", operation := Operations.NONE,
                    status := StatusMessages.INACTIVE_USER, message := "" }] },
       .json StatusMessages.INACTIVE_USER none) := by
  have h := inactive_member_frozen { members := [sample_inactive], logs := [] } true "5" 9 5
    sample_inactive (by decide) (by decide) (by decide) (by decide) (by decide) (by decide)
    (by decide) rfl
  rw [h.1]
  decide

/-- C7 (confirmed): dispatching a numeric id with no matching member
appends one log entry with `status = User Not Found`, a null member
reference and `entered` equal to the input string, returns that status,
and mutates no member; a second identical dispatch appends a second such
entry and still mutates no member. -/
theorem user_not_found_idempotent (db : DB) (debug : Bool) (input : String)
    (right_now : Int) (uid : Int)
    (h0 : pyStrip input = input) (h1 : input.isEmpty = false)
    (h2 : handle_special_commands input = none)
    (h3 : input ≠ Commands.BULK_CHECK_IN) (h4 : input ≠ Commands.BULK_CHECK_OUT)
    (h5 : pyParseInt input = some uid)
    (h6 : db.members.find? (fun v => v.User_ID == uid) = none) :
    handle_entry db debug input right_now =
      ({ db with logs := db.logs ++
          [{ user := none, entered := input, operation := Operations.NONE,
             status := StatusMessages.USER_NOT_FOUND, message := "" }] },
       .json StatusMessages.USER_NOT_FOUND none) ∧
    handle_entry
        { db with logs := db.logs ++
            [{ user := none, entered := input, operation := Operations.NONE,
               status := StatusMessages.USER_NOT_FOUND, message := "" }] }
        debug input right_now =
      ({ db with logs := (db.logs ++
          [{ user := none, entered := input, operation := Operations.NONE,
             status := StatusMessages.USER_NOT_FOUND, message := "" }]) ++
          [{ user := none, entered := input, operation := Operations.NONE,
             status := StatusMessages.USER_NOT_FOUND, message := "" }] },
       .json StatusMessages.USER_NOT_FOUND none) := by
  have b3 : (input == Commands.BULK_CHECK_IN) = false := beq_eq_false_iff_ne.2 h3
  have b4 : (input == Commands.BULK_CHECK_OUT) = false := beq_eq_false_iff_ne.2 h4
  have main : ∀ db' : DB, db'.members = db.members →
      handle_entry db' debug input right_now =
        ({ db' with logs := db'.logs ++
            [{ user := none, entered := input, operation := Operations.NONE,
               status := StatusMessages.USER_NOT_FOUND, message := "" }] },
         .json StatusMessages.USER_NOT_FOUND none) := by
    intro db' hm
    simp [handle_entry, h0, h1, h2, b3, b4, h5, hm, h6]
  exact ⟨main db rfl, main _ rfl⟩

/-- C7 witness: dispatching `"9999"` against a store holding only member
404 logs `User Not Found` with a null reference and no member change. -/
theorem user_not_found_idempotent_witness :
    handle_entry { members := [member404], logs := [] } true "9999" 7 =
      ({ members := [member404],
         logs := [{ user := none, entered := "9999", operation := Operations.NONE,
                    status := StatusMessages.USER_NOT_FOUND, message := "" }] },
       .json StatusMessages.USER_NOT_FOUND none) := by
  have h := user_not_found_idempotent { members := [member404], logs := [] } true "9999" 7
    9999 (by decide) (by decide) (by decide) (by decide) (by decide) (by decide) (by decide)
  rw [h.1]
  decide

/-- C8 (confirmed): the admin reset rewrites exactly the selected members
(`total_seconds` and `total_hours` zeroed, both timestamps cleared,
`checked_in` false); per member it appends the synthetic
`Check Out`/`Success` entry first exactly when the member was checked in,
followed by the `Reset`/`Success` entry; and the whole batch is one atomic
block, so a mid-batch fault mutates zero members. -/
theorem reset_spec (db : DB) (ids : List Int)
    (hnd : (db.members.map (fun u => u.User_ID)).Nodup) :
    reset db ids =
      { members := db.members.map (fun u =>
          if ids.contains u.User_ID then reset_member u else u),
        logs := db.logs ++
          ((db.members.filter (fun u => ids.contains u.User_ID)).map reset_logs).flatten } ∧
    (∀ u : Users, u.Checked_In = true → reset_logs u =
      [{ user := some u.User_ID, entered := "", operation := Operations.CHECK_OUT,
         status := StatusMessages.SUCCESS, message := "" },
       { user := some u.User_ID, entered := "", operation := "Reset",
         status := StatusMessages.SUCCESS, message := "" }]) ∧
    (∀ u : Users, u.Checked_In = false → reset_logs u =
      [{ user := some u.User_ID, entered := "", operation := "Reset",
         status := StatusMessages.SUCCESS, message := "" }]) ∧
    (∀ u : Users, (reset_member u).Checked_In = false ∧
      (reset_member u).Total_Seconds = 0 ∧ (reset_member u).Last_In = none ∧
      (reset_member u).Last_Out = none) ∧
    reset db ids = runBlocks db (reset_plan db ids) none ∧
    runBlocks db (reset_plan db ids) (some 0) = db := by
  refine ⟨?_, ?_, ?_, ?_, ?_, rfl⟩
  · rw [show reset db ids =
      { members := bulk_update db.members
          ((db.members.filter (fun u => ids.contains u.User_ID)).map reset_member),
        logs := db.logs ++
          ((db.members.filter (fun u => ids.contains u.User_ID)).map reset_logs).flatten }
      from rfl]
    rw [bulk_update_filter_map db.members (fun u => ids.contains u.User_ID)
      reset_member (fun u => rfl) hnd]
  · intro u h
    simp [reset_logs, h]
  · intro u h
    simp [reset_logs, h]
  · intro u
    refine ⟨rfl, rfl, rfl, rfl⟩
  · rw [show reset_plan db ids =
      [((db.members.filter (fun u => ids.contains u.User_ID)).map reset_member).map
          WriteOp.putMember
        ++ ((db.members.filter (fun u => ids.contains u.User_ID)).map reset_logs).flatten.map
          WriteOp.putLog] from rfl]
    rw [runBlocks_single_none, applyBlock_puts_then_logs]
    rfl

/-- C8 witness: resetting member 7 (checked in) in a two-member store
zeroes exactly that member and appends its Check Out and Reset entries. -/
theorem reset_spec_witness :
    reset { members := [sample_co, sample_out], logs := [] } [7] =
      { members := [reset_member sample_co, sample_out],
        logs := [{ user := some 7, entered := "", operation := Operations.CHECK_OUT,
                   status := StatusMessages.SUCCESS, message := "" },
                 { user := some 7, entered := "", operation := "Reset",
                   status := StatusMessages.SUCCESS, message := "" }] } := by
  have h := reset_spec { members := [sample_co, sample_out], logs := [] } [7] (by decide)
  rw [h.1]
  decide

/-- C9 (confirmed): the bulk check-in token with the debug flag false is a
silent no-op (same redirect response as the success path, no member and no
log touched); with the flag true it checks in exactly the members with
`active = true` and `checked_in = false`, stamping `last_in` and appending
one log entry per selected member. -/
theorem bulk_check_in_debug_gate (db : DB) (t : Int)
    (hnd : (db.members.map (fun u => u.User_ID)).Nodup) :
    handle_bulk_updates db false Commands.BULK_CHECK_IN t = db ∧
    handle_entry db false Commands.BULK_CHECK_IN t = (db, .redirectTo "index") ∧
    handle_bulk_updates db true Commands.BULK_CHECK_IN t =
      { members := db.members.map (fun u =>
          if !u.Checked_In && u.Is_Active then
            { u with Checked_In := true, Last_In := some t }
          else u),
        logs := db.logs ++ (db.members.filter (fun u => !u.Checked_In && u.Is_Active)).map
          (fun u => mk_bulk_log u Operations.CHECK_IN) } := by
  refine ⟨rfl, rfl, ?_⟩
  rw [show handle_bulk_updates db true Commands.BULK_CHECK_IN t =
    { members := bulk_update db.members
        ((db.members.filter (fun u => !u.Checked_In && u.Is_Active)).map
          (fun u => { u with Checked_In := true, Last_In := some t })),
      logs := db.logs ++ (db.members.filter (fun u => !u.Checked_In && u.Is_Active)).map
        (fun u => mk_bulk_log u Operations.CHECK_IN) } from rfl]
  rw [bulk_update_filter_map db.members (fun u => !u.Checked_In && u.Is_Active)
    (fun u => { u with Checked_In := true, Last_In := some t }) (fun u => rfl) hnd]

/-- C9 witness: with debug false the two-member store is untouched; with
debug true exactly the eligible member `sample_out` is checked in. -/
theorem bulk_check_in_debug_gate_witness :
    handle_bulk_updates { members := [sample_out, sample_co], logs := [] } false
        Commands.BULK_CHECK_IN 9 = { members := [sample_out, sample_co], logs := [] } ∧
    handle_bulk_updates { members := [sample_out, sample_co], logs := [] } true
        Commands.BULK_CHECK_IN 9 =
      { members := [{ sample_out with Checked_In := true, Last_In := some 9 }, sample_co],
        logs := [mk_bulk_log sample_out Operations.CHECK_IN] } := by
  have h := bulk_check_in_debug_gate { members := [sample_out, sample_co], logs := [] } 9
    (by decide)
  refine ⟨h.1, ?_⟩
  rw [h.2.2]
  decide

/-- C10 (confirmed): the raw inputs `"+404"` and `"-404"` are routed to
the bulk engine before integer parsing, for every store, debug flag and
time — even though both strings parse as the integers 404 and -404; the
member with id 404 is still reachable as a single-member transition via
the input `"404"`, while `"+404"` leaves that member's row untouched. -/
theorem bulk_tokens_shadow_integer_ids :
    (∀ (db : DB) (debug : Bool) (t : Int),
      handle_entry db debug "+404" t =
        (handle_bulk_updates db debug "+404" t, .redirectTo "index")) ∧
    (∀ (db : DB) (debug : Bool) (t : Int),
      handle_entry db debug "-404" t =
        (handle_bulk_updates db debug "-404" t, .redirectTo "index")) ∧
    pyParseInt "+404" = some 404 ∧
    pyParseInt "-404" = some (-404) ∧
    (handle_entry { members := [member404], logs := [] } true "404" 5).1.members =
      [{ member404 with Checked_In := true, Last_In := some 5 }] ∧
    (handle_entry { members := [member404], logs := [] } true "+404" 5).1.members =
      [member404] :=
  ⟨fun _ _ _ => rfl, fun _ _ _ => rfl, by decide, by decide, by decide, by decide⟩

end HeroHours
